import Mathlib

/-!
Verification of the scanimation pattern-grid construction and frame-compositing
engine, a shallow embedding of `src/scanimate/scanimate.py` (the `main` pipeline,
lines 69-103) and of the `Moire` class in `src/scanimate/moire.py`.

Images are modelled as total functions from indices to natural pixel values,
together with their dimensions. `numpy` slice assignments, `np.roll`,
elementwise multiplication, axis-0 summation and the `uint8` narrowing are
embedded operation by operation. All pixel arithmetic in the source is exact on
the integer values that occur (products and sums of 8-bit values in `float32`),
so values are modelled as `Nat`; the final `astype(np.uint8)` reduces a
nonnegative integral value modulo 256.
-/

/-- Membership of index `x` in the numpy slice `start::step`
(`x >= start` and `x ≡ start (mod step)`). -/
def sliceHit (start step x : Nat) : Bool :=
  decide (start ≤ x) && decide ((x - start) % step = 0)

/-- Effect along the striping axis of the loop
`for i in range(sw): grid[..., i::F*sw, ...] = 1`:
coordinate `x` was assigned by some iteration `i < sw`. -/
def stripeAt (F sw x : Nat) : Bool :=
  (List.range sw).any fun i => sliceHit i (F * sw) x

/-- Source index of `np.roll(a, shift)` at destination index `x` on an axis of
length `n`: `out[x] = a[(x - shift) mod n]`. -/
def rollIndex (n shift x : Nat) : Nat :=
  (((x : Int) - (shift : Int)) % (n : Int)).toNat

/-- A 4-D array of shape `(frames, height, width, channels)`, as produced by
`imageio.mimread` for a GIF: dimensions plus a total indexing function. -/
structure Arr4 where
  frames : Nat
  height : Nat
  width : Nat
  channels : Nat
  data : Nat → Nat → Nat → Nat → Nat

/-- A 3-D array of shape `(height, width, channels)`: one image. -/
structure Arr3 where
  height : Nat
  width : Nat
  channels : Nat
  data : Nat → Nat → Nat → Nat

/-- `np.zeros_like(img)` (scanimate.py line 69). -/
def zerosLike (a : Arr4) : Arr4 :=
  ⟨a.frames, a.height, a.width, a.channels, fun _ _ _ _ => 0⟩

/-- Lines 79-80 (`hgrid` branch): `for i in range(stripewidth):
grid[:, :, i::img.shape[0]*stripewidth, :] = 1` — every frame, row and channel;
a column is set to 1 exactly when some iteration's slice covers it. -/
def setColStripes (g : Arr4) (sw : Nat) : Arr4 :=
  { g with data := fun k r c ch =>
      if (List.range sw).any (fun i => sliceHit i (g.frames * sw) c) then 1
      else g.data k r c ch }

/-- Lines 88-89 (`vgrid` branch): `for i in range(stripewidth):
grid[:, i::img.shape[0]*stripewidth, :, :] = 1` — the symmetric rule over rows. -/
def setRowStripes (g : Arr4) (sw : Nat) : Arr4 :=
  { g with data := fun k r c ch =>
      if (List.range sw).any (fun i => sliceHit i (g.frames * sw) r) then 1
      else g.data k r c ch }

/-- Lines 83-84: `for i in range(1, len(grid)):
grid[i] = np.roll(grid[i], i*stripewidth, axis=1)` — each frame `k ≥ 1` is
rolled along the column axis by `k*stripewidth`; iterations touch disjoint
frames, so the loop acts independently per frame. -/
def rollFramesCols (g : Arr4) (sw : Nat) : Arr4 :=
  { g with data := fun k r c ch =>
      if 1 ≤ k ∧ k < g.frames then g.data k r (rollIndex g.width (k * sw) c) ch
      else g.data k r c ch }

/-- Lines 92-93: the same per-frame roll along the row axis (`axis=0` of the
frame) for the `vgrid` branch. -/
def rollFramesRows (g : Arr4) (sw : Nat) : Arr4 :=
  { g with data := fun k r c ch =>
      if 1 ≤ k ∧ k < g.frames then g.data k (rollIndex g.height (k * sw) r) c ch
      else g.data k r c ch }

/-- Line 95: `grid[:, :, :, -1] = 1` — the last channel of every frame of the
grid stack is overwritten with 1, unconditionally on the channel count. -/
def setAlphaOne (g : Arr4) : Arr4 :=
  { g with data := fun k r c ch =>
      if ch = g.channels - 1 then 1 else g.data k r c ch }

/-- The stack of phase-shifted grids of the `hgrid` branch (lines 77-84),
before the alpha overwrite of line 95: frame `k` is the base striped grid
circularly shifted by `k*stripewidth` along the column axis. -/
def hgridPhases (img : Arr4) (sw : Nat) : Arr4 :=
  rollFramesCols (setColStripes (zerosLike img) sw) sw

/-- The stack of phase-shifted grids of the `vgrid` branch (lines 86-93),
before the alpha overwrite of line 95. -/
def vgridPhases (img : Arr4) (sw : Nat) : Arr4 :=
  rollFramesRows (setRowStripes (zerosLike img) sw) sw

/-- The `hgrid` grid stack as actually multiplied against the frames:
lines 77-84 followed by the line 95 overwrite. -/
def hgridFull (img : Arr4) (sw : Nat) : Arr4 := setAlphaOne (hgridPhases img sw)

/-- The `vgrid` grid stack as actually multiplied against the frames. -/
def vgridFull (img : Arr4) (sw : Nat) : Arr4 := setAlphaOne (vgridPhases img sw)

/-- Lines 98 and 101: `res = img * grid` (elementwise, exact on these integer
values) followed by `res = np.sum(res, axis=0)`. -/
def maskAndSum (img grid : Arr4) : Arr3 :=
  ⟨img.height, img.width, img.channels,
   fun r c ch => (Finset.range img.frames).sum fun k => img.data k r c ch * grid.data k r c ch⟩

/-- Line 102: `res[:, :, -1] = 255.` — the last channel of the summed image is
overwritten with 255, unconditionally on the channel count. -/
def setLast255 (a : Arr3) : Arr3 :=
  { a with data := fun r c ch => if ch = a.channels - 1 then 255 else a.data r c ch }

/-- Line 103: `res = res.astype(np.uint8)`. The values reaching this cast are
nonnegative integers (held exactly in `float32`); the C-style conversion to an
unsigned 8-bit integer reduces such a value modulo 256 — it does not clamp. -/
def toUint8 (a : Arr3) : Arr3 :=
  { a with data := fun r c ch => a.data r c ch % 256 }

/-- The summed composite of the `hgrid` pipeline after the alpha overwrite
(lines 98-102), before the `uint8` narrowing. -/
def summedH (img : Arr4) (sw : Nat) : Arr3 := setLast255 (maskAndSum img (hgridFull img sw))

/-- The summed composite of the `vgrid` pipeline before the `uint8` narrowing. -/
def summedV (img : Arr4) (sw : Nat) : Arr3 := setLast255 (maskAndSum img (vgridFull img sw))

/-- The final composite image `res` of the `hgrid` pipeline (lines 98-103). -/
def scanimationH (img : Arr4) (sw : Nat) : Arr3 := toUint8 (summedH img sw)

/-- The final composite image `res` of the `vgrid` pipeline (lines 98-103). -/
def scanimationV (img : Arr4) (sw : Nat) : Arr3 := toUint8 (summedV img sw)

/-- The `pattern` constructor argument of the `Moire` class (a string in the
source, `"hgrid"` or `"vgrid"`). -/
inductive Pattern
  | hgrid
  | vgrid

/-- A 2-D array, for `Moire.grid` (`np.zeros((size, size))` plus assignments). -/
structure Arr2 where
  rows : Nat
  cols : Nat
  data : Nat → Nat → Nat

/-- The instance state of `moire.Moire`: constructor configuration
(`_pattern`, `_stripe_width`, `_num_frames`, `_replications`) together with the
derived `grid` attribute. -/
structure Moire where
  pattern : Pattern
  stripe_width : Nat
  num_frames : Nat
  replications : Nat
  grid : Arr2

/-- `Moire.make_grid` (moire.py lines 87-90):
`size = stripe_width * num_frames * replications`;
`grid = np.zeros((size, size))`; `grid[0::num_frames] = 1` — a square grid whose
rows in the slice `0::num_frames` are set to 1. -/
def make_grid (s : Moire) : Moire :=
  let size := s.stripe_width * s.num_frames * s.replications
  { s with grid := ⟨size, size, fun r _ => if sliceHit 0 s.num_frames r then 1 else 0⟩ }

/-- `Moire.__init__` (moire.py lines 44-50): stores the configuration, sets
`_replications = 24` and calls `make_grid`. -/
def Moire.init (pattern : Pattern) (stripe_width num_frames : Nat) : Moire :=
  make_grid ⟨pattern, stripe_width, num_frames, 24, ⟨0, 0, fun _ _ => 0⟩⟩

/-- The `replications` property setter (moire.py lines 71-73): assigns
`_replications` and nothing else — in particular it does not call `make_grid`. -/
def setReplications (s : Moire) (v : Nat) : Moire := { s with replications := v }

/-- The Python exceptions `Moire.__call__` can raise. -/
inductive PyExc
  | nameError
  | valueError

/-- `Moire.__call__` (moire.py lines 52-65) up to its validation step. The
source line is `if not len(arr) == num_frames:`, where `num_frames` is a bare
name, not `self._num_frames`; at import time the module defines no global
`num_frames` (it is bound only inside the `__main__` block), so evaluating the
comparison raises `NameError` before any length check happens. The optional
`moduleNumFrames` models that global; the instance's own `_num_frames` is never
read by the check (it appears only in the error message). On a mismatch the
source raises a plain `ValueError`. -/
def moireCall (_self : Moire) (moduleNumFrames : Option Nat) (arrLen : Nat) :
    Except PyExc Unit :=
  match moduleNumFrames with
  | none => Except.error PyExc.nameError
  | some nf => if ¬ arrLen = nf then Except.error PyExc.valueError else Except.ok ()

/-- The spec's end-to-end example input: 3 frames, 12×12, a single channel,
frame `k` constant with value `10*(k+1)` (10, 20, 30). -/
def exImgGray : Arr4 := ⟨3, 12, 12, 1, fun k _ _ _ => 10 * (k + 1)⟩

/-- A well-formed RGBA input: 3 frames, 12×12, 4 channels, frame `k` constant
with value `10*(k+1)`. -/
def exImgRGBA : Arr4 := ⟨3, 12, 12, 4, fun k _ _ _ => 10 * (k + 1)⟩

/-- An input whose width 5 is not divisible by the period
`stripewidth * frames = 2`: 2 frames, 1×5, 4 channels, all pixels 200. -/
def exImgOverlap : Arr4 := ⟨2, 1, 5, 4, fun _ _ _ _ => 200⟩

lemma stripeAt_true_iff (F sw x : Nat) (hF : 1 ≤ F) :
    stripeAt F sw x = true ↔ x % (F * sw) < sw := by
  unfold stripeAt
  rw [List.any_eq_true]
  constructor
  · rintro ⟨i, hi, hhit⟩
    rw [List.mem_range] at hi
    simp only [sliceHit, Bool.and_eq_true, decide_eq_true_eq] at hhit
    obtain ⟨hle, hmod⟩ := hhit
    obtain ⟨q, hq⟩ := Nat.dvd_of_mod_eq_zero hmod
    have hx : x = i + F * sw * q := by omega
    have hisw : i < F * sw := lt_of_lt_of_le hi (Nat.le_mul_of_pos_left sw hF)
    rw [hx, Nat.add_mul_mod_self_left, Nat.mod_eq_of_lt hisw]
    exact hi
  · intro h
    refine ⟨x % (F * sw), List.mem_range.mpr h, ?_⟩
    simp only [sliceHit, Bool.and_eq_true, decide_eq_true_eq]
    refine ⟨Nat.mod_le x _, ?_⟩
    conv_lhs => rw [show x - x % (F * sw) = F * sw * (x / (F * sw)) by
      have := Nat.div_add_mod x (F * sw); omega]
    exact Nat.mul_mod_right _ _

lemma rollIndex_eq_of_le (n shift x : Nat) (hs : shift ≤ n) :
    rollIndex n shift x = (x + (n - shift)) % n := by
  unfold rollIndex
  have h1 : (x : Int) - shift = ((x : Int) + ((n : Int) - shift)) + n * (-1) := by ring
  rw [h1, Int.add_mul_emod_self_left]
  have h2 : ((x : Int) + ((n : Int) - (shift : Int))) = ((x + (n - shift) : Nat) : Int) := by
    push_cast [hs]
    ring
  rw [h2, ← Int.natCast_mod, Int.toNat_natCast]

lemma rollIndex_zero (n x : Nat) (hx : x < n) : rollIndex n 0 x = x := by
  rw [rollIndex_eq_of_le n 0 x (by omega)]
  rw [Nat.sub_zero, Nat.add_mod_right]
  exact Nat.mod_eq_of_lt hx

lemma residue_lt (F sw p j b : Nat) (hp : p = F * sw) (hb : b < sw) (hj : j < F) :
    sw * j + b < p := by
  have h1 : sw * j + sw ≤ sw * F := by
    calc sw * j + sw = sw * (j + 1) := by rw [Nat.mul_succ]
      _ ≤ sw * F := Nat.mul_le_mul_left sw (by omega)
  have h2 : sw * F = F * sw := Nat.mul_comm sw F
  omega

/-- Abstract form of the per-period residue computation: writing `x` in radix
form `x = p * q + (sw * a + b)` with `p = F * sw`, `b < sw`, `a < F`, the
circularly shifted coordinate `x + (L - k * sw)` has residue mod `p` below `sw`
exactly for the phase `k = a`. -/
lemma residue_char (F sw L x p a b q m k : Nat)
    (hp : p = F * sw) (hL : L = p * m) (hxe : x = p * q + (sw * a + b))
    (hb : b < sw) (ha : a < F) (hk : k < F) (hm1 : 1 ≤ m) (hsw : 0 < sw) :
    ((x + (L - k * sw)) % p < sw ↔ k = a) := by
  have hkswp : k * sw < p := by
    rw [hp]; exact mul_lt_mul_of_pos_right hk hsw
  have hpL : p ≤ L := by
    rw [hL]; exact Nat.le_mul_of_pos_right p hm1
  have hksw : k * sw ≤ L := by omega
  by_cases hka : k ≤ a
  · obtain ⟨j, hj⟩ : ∃ j, a = k + j := ⟨a - k, by omega⟩
    have key : x + (L - k * sw) = (sw * j + b) + p * (q + m) := by
      zify [hksw]
      have hxe' : (x : Int) = p * q + (sw * a + b) := by exact_mod_cast hxe
      have hL' : (L : Int) = p * m := by exact_mod_cast hL
      have hj' : (a : Int) = k + j := by exact_mod_cast hj
      linear_combination hxe' + hL' + sw * hj'
    rw [key, Nat.add_mul_mod_self_left,
      Nat.mod_eq_of_lt (residue_lt F sw p j b hp hb (by omega))]
    constructor
    · intro h
      by_contra hne
      have hjpos : 1 ≤ j := by omega
      have h2 : sw * 1 ≤ sw * j := Nat.mul_le_mul_left sw hjpos
      omega
    · intro h
      have hj0 : j = 0 := by omega
      rw [hj0, Nat.mul_zero, Nat.zero_add]
      exact hb
  · obtain ⟨d, hd1, hdk⟩ : ∃ d, 1 ≤ d ∧ d + a = k := ⟨k - a, by omega, by omega⟩
    obtain ⟨j, hj1, hjd⟩ : ∃ j, 1 ≤ j ∧ j + d = F := ⟨F - d, by omega, by omega⟩
    have key : x + (L - k * sw) = (sw * j + b) + p * (q + (m - 1)) := by
      zify [hksw, hm1]
      have hxe' : (x : Int) = p * q + (sw * a + b) := by exact_mod_cast hxe
      have hL' : (L : Int) = p * m := by exact_mod_cast hL
      have hp' : (p : Int) = F * sw := by exact_mod_cast hp
      have hdk' : (d : Int) + a = k := by exact_mod_cast hdk
      have hjd' : (j : Int) + d = F := by exact_mod_cast hjd
      linear_combination hxe' + hL' + sw * hdk' - sw * hjd' + hp'
    rw [key, Nat.add_mul_mod_self_left,
      Nat.mod_eq_of_lt (residue_lt F sw p j b hp hb (by omega))]
    have hge : sw * 1 ≤ sw * j := Nat.mul_le_mul_left sw hj1
    constructor
    · intro h; omega
    · intro h; omega

/-- When the period `F * sw` divides the axis length `L`, the phase-`k` rolled
stripe test succeeds at coordinate `x` exactly when `k = x % (F * sw) / sw`. -/
lemma phase_hit_iff (F sw L x k : Nat) (hsw : 0 < sw) (hF : 0 < F)
    (hdvd : F * sw ∣ L) (hx : x < L) (hk : k < F) :
    rollIndex L (k * sw) x % (F * sw) < sw ↔ k = x % (F * sw) / sw := by
  have hL0 : 0 < L := by omega
  have hp0 : 0 < F * sw := Nat.mul_pos hF hsw
  obtain ⟨m, hm⟩ := hdvd
  have hm1 : 1 ≤ m := by
    rcases Nat.eq_zero_or_pos m with h0 | h1
    · rw [h0, Nat.mul_zero] at hm; omega
    · exact h1
  have hkswL : k * sw ≤ L := by
    have h1 : k * sw < F * sw := mul_lt_mul_of_pos_right hk hsw
    have h2 : F * sw ≤ L := Nat.le_of_dvd hL0 ⟨m, hm⟩
    omega
  rw [rollIndex_eq_of_le L (k * sw) x hkswL, Nat.mod_mod_of_dvd _ ⟨m, hm⟩]
  refine residue_char F sw L x (F * sw) (x % (F * sw) / sw) (x % (F * sw) % sw)
    (x / (F * sw)) m k rfl hm ?_ (Nat.mod_lt _ hsw) ?_ hk hm1 hsw
  · have e1 := Nat.div_add_mod x (F * sw)
    have e2 := Nat.div_add_mod (x % (F * sw)) sw
    omega
  · rw [Nat.div_lt_iff_lt_mul hsw]
    exact Nat.mod_lt _ hp0

lemma hgridPhases_data (img : Arr4) (sw k r c ch : Nat) :
    (hgridPhases img sw).data k r c ch =
      if stripeAt img.frames sw
          (if 1 ≤ k ∧ k < img.frames then rollIndex img.width (k * sw) c else c) = true
      then 1 else 0 := by
  simp only [hgridPhases, rollFramesCols, setColStripes, zerosLike, stripeAt]
  by_cases h : 1 ≤ k ∧ k < img.frames <;> simp [h]

lemma vgridPhases_data (img : Arr4) (sw k r c ch : Nat) :
    (vgridPhases img sw).data k r c ch =
      if stripeAt img.frames sw
          (if 1 ≤ k ∧ k < img.frames then rollIndex img.height (k * sw) r else r) = true
      then 1 else 0 := by
  simp only [vgridPhases, rollFramesRows, setRowStripes, zerosLike, stripeAt]
  by_cases h : 1 ≤ k ∧ k < img.frames <;> simp [h]

lemma shift_sel (F k sw L x : Nat) (hk : k < F) (hx : x < L) :
    (if 1 ≤ k ∧ k < F then rollIndex L (k * sw) x else x) = rollIndex L (k * sw) x := by
  by_cases h1 : 1 ≤ k
  · rw [if_pos ⟨h1, hk⟩]
  · have hk0 : k = 0 := by omega
    subst hk0
    rw [if_neg (by omega), Nat.zero_mul, rollIndex_zero L x hx]

lemma cell_one_iff (F sw x : Nat) (hF : 1 ≤ F) :
    ((if stripeAt F sw x = true then 1 else 0 : Nat) = 1 ↔ x % (sw * F) < sw) := by
  rw [Nat.mul_comm sw F]
  have hst := stripeAt_true_iff F sw x hF
  by_cases h : stripeAt F sw x = true
  · rw [if_pos h]
    exact ⟨fun _ => hst.mp h, fun _ => rfl⟩
  · rw [if_neg h]
    exact ⟨fun h01 => by omega, fun hc => absurd (hst.mpr hc) h⟩

/-- Closed form of a phase-grid cell under the divisibility precondition. -/
lemma phase_cell_eq (F sw L x k : Nat) (hsw : 1 ≤ sw) (hF : 1 ≤ F)
    (hdvd : F * sw ∣ L) (hx : x < L) (hk : k < F) :
    (if stripeAt F sw (if 1 ≤ k ∧ k < F then rollIndex L (k * sw) x else x) = true
      then 1 else 0 : Nat)
      = if k = x % (F * sw) / sw then 1 else 0 := by
  rw [shift_sel F k sw L x hk hx]
  have hst := stripeAt_true_iff F sw (rollIndex L (k * sw) x) hF
  have hph := phase_hit_iff F sw L x k hsw hF hdvd hx hk
  by_cases h : k = x % (F * sw) / sw
  · rw [if_pos (hst.mpr (hph.mpr h)), if_pos h]
  · rw [if_neg fun hh => h (hph.mp (hst.mp hh)), if_neg h]

lemma phase_cell_sum_one (F sw L x : Nat) (hsw : 1 ≤ sw) (hF : 1 ≤ F)
    (hdvd : F * sw ∣ L) (hx : x < L) :
    ((Finset.range F).sum fun k =>
      (if stripeAt F sw (if 1 ≤ k ∧ k < F then rollIndex L (k * sw) x else x) = true
        then 1 else 0 : Nat)) = 1 := by
  have ha : x % (F * sw) / sw < F := by
    rw [Nat.div_lt_iff_lt_mul hsw]
    exact Nat.mod_lt _ (Nat.mul_pos hF hsw)
  rw [Finset.sum_congr rfl fun k hk =>
    phase_cell_eq F sw L x k hsw hF hdvd hx (Finset.mem_range.mp hk)]
  rw [Finset.sum_ite_eq' (Finset.range F) (x % (F * sw) / sw) fun _ => (1 : Nat)]
  rw [if_pos (Finset.mem_range.mpr ha)]

/-- C1: for every frame stack with `stripe_width ≥ 1`, `frame_count ≥ 1` and
`stripe_width * frame_count` dividing the striping-axis length, the elementwise
sum over `k` of the `N` phase-shifted grids (the base grid circularly shifted
by `k * stripe_width` along the striping axis) is 1 at every in-bounds cell,
for both orientations. -/
theorem partition_sum_one (img : Arr4) (sw r c ch : Nat)
    (hsw : 1 ≤ sw) (hF : 1 ≤ img.frames) :
    (sw * img.frames ∣ img.width → c < img.width →
      ((Finset.range img.frames).sum fun k => (hgridPhases img sw).data k r c ch) = 1) ∧
    (sw * img.frames ∣ img.height → r < img.height →
      ((Finset.range img.frames).sum fun k => (vgridPhases img sw).data k r c ch) = 1) := by
  constructor
  · intro hdvd hc
    have hdvd' : img.frames * sw ∣ img.width := by rwa [Nat.mul_comm] at hdvd
    calc ((Finset.range img.frames).sum fun k => (hgridPhases img sw).data k r c ch)
        = (Finset.range img.frames).sum fun k =>
            (if stripeAt img.frames sw (if 1 ≤ k ∧ k < img.frames then
              rollIndex img.width (k * sw) c else c) = true then 1 else 0 : Nat) :=
          Finset.sum_congr rfl fun k _ => hgridPhases_data img sw k r c ch
      _ = 1 := phase_cell_sum_one img.frames sw img.width c hsw hF hdvd' hc
  · intro hdvd hr
    have hdvd' : img.frames * sw ∣ img.height := by rwa [Nat.mul_comm] at hdvd
    calc ((Finset.range img.frames).sum fun k => (vgridPhases img sw).data k r c ch)
        = (Finset.range img.frames).sum fun k =>
            (if stripeAt img.frames sw (if 1 ≤ k ∧ k < img.frames then
              rollIndex img.height (k * sw) r else r) = true then 1 else 0 : Nat) :=
          Finset.sum_congr rfl fun k _ => vgridPhases_data img sw k r c ch
      _ = 1 := phase_cell_sum_one img.frames sw img.height r hsw hF hdvd' hr

/-- Witness for C1 at the 12×12, 3-frame, stripe-width-1 input. -/
theorem partition_sum_one_witness :
    (1 ≤ 1 ∧ 1 ≤ exImgRGBA.frames ∧ 1 * exImgRGBA.frames ∣ exImgRGBA.width ∧
      1 < exImgRGBA.width) ∧
    ((Finset.range exImgRGBA.frames).sum fun k => (hgridPhases exImgRGBA 1).data k 0 1 0) = 1 :=
  ⟨by decide,
    (partition_sum_one exImgRGBA 1 0 1 0 (by decide) (by decide)).1 (by decide) (by decide)⟩

/-- C2: in the phase-0 grid a pixel along the striping axis is 1 exactly when
its coordinate mod `stripe_width * frame_count` is below `stripe_width`, and the
phase-`k` grid applies the same test to the coordinate shifted by
`k * stripe_width` with wraparound, for both orientations. -/
theorem stripe_rule_phase_shift (img : Arr4) (sw k r c ch : Nat)
    (hsw : 1 ≤ sw) (hF : 1 ≤ img.frames) (hk : k < img.frames) :
    (c < img.width →
      ((hgridPhases img sw).data 0 r c ch = 1 ↔ c % (sw * img.frames) < sw) ∧
      ((hgridPhases img sw).data k r c ch = 1 ↔
        rollIndex img.width (k * sw) c % (sw * img.frames) < sw)) ∧
    (r < img.height →
      ((vgridPhases img sw).data 0 r c ch = 1 ↔ r % (sw * img.frames) < sw) ∧
      ((vgridPhases img sw).data k r c ch = 1 ↔
        rollIndex img.height (k * sw) r % (sw * img.frames) < sw)) := by
  constructor
  · intro hc
    constructor
    · rw [hgridPhases_data]
      rw [show (if 1 ≤ 0 ∧ 0 < img.frames then rollIndex img.width (0 * sw) c else c) = c
        from if_neg (by omega)]
      exact cell_one_iff img.frames sw c hF
    · rw [hgridPhases_data, shift_sel img.frames k sw img.width c hk hc]
      exact cell_one_iff img.frames sw _ hF
  · intro hr
    constructor
    · rw [vgridPhases_data]
      rw [show (if 1 ≤ 0 ∧ 0 < img.frames then rollIndex img.height (0 * sw) r else r) = r
        from if_neg (by omega)]
      exact cell_one_iff img.frames sw r hF
    · rw [vgridPhases_data, shift_sel img.frames k sw img.height r hk hr]
      exact cell_one_iff img.frames sw _ hF

/-- Witness for C2: phase-0 of the 3-frame grid at column 1 (not a stripe). -/
theorem stripe_rule_phase_shift_witness :
    (1 ≤ 1 ∧ 1 ≤ exImgRGBA.frames ∧ 1 < exImgRGBA.frames ∧ 1 < exImgRGBA.width) ∧
    ((hgridPhases exImgRGBA 1).data 0 0 1 0 = 1 ↔ 1 % (1 * exImgRGBA.frames) < 1) :=
  ⟨by decide,
    ((stripe_rule_phase_shift exImgRGBA 1 1 0 1 0 (by decide) (by decide) (by decide)).1
      (by decide)).1⟩

/-- C3 (evidence of the code bug): on the spec's end-to-end example
(12×12, 3 frames, 1 channel, stripe width 1, values 10/20/30) the unconditional
`grid[:, :, :, -1] = 1` of line 95 overwrites the sole channel, so the grids the
claim expects to be striped are all-ones (columns 1 and 4 of `grid_0` read 1,
not 0), and `res[:, :, -1] = 255.` makes every composite pixel 255 instead of
the expected repeating 10/20/30 columns. -/
theorem grayscale_alpha_clobber :
    (hgridFull exImgGray 1).data 0 0 1 0 = 1 ∧
    (hgridFull exImgGray 1).data 0 0 4 0 = 1 ∧
    (scanimationH exImgGray 1).data 0 0 0 = 255 ∧
    (scanimationH exImgGray 1).data 0 1 0 = 255 := by
  decide

/-- C4 counterexample: with 2 frames, stripe width 1 and width 5 (period 2 does
not divide 5), phase grids 0 and 1 overlap at column 0, so their elementwise
product is not 0 there — the claim as stated, with no divisibility hypothesis,
is false. -/
theorem disjointness_counterexample :
    ¬ ((hgridPhases exImgOverlap 1).data 0 0 0 0 *
        (hgridPhases exImgOverlap 1).data 1 0 0 0 = 0) := by
  decide

/-- C4 (amended): under the divisibility precondition
`stripe_width * frame_count ∣ axis length`, distinct phase grids have
elementwise product 0 at every in-bounds cell, for both orientations. -/
theorem disjoint_grids (img : Arr4) (sw k j r c ch : Nat) (hsw : 1 ≤ sw)
    (hF : 1 ≤ img.frames) (hk : k < img.frames) (hj : j < img.frames) (hne : k ≠ j) :
    (sw * img.frames ∣ img.width → c < img.width →
      (hgridPhases img sw).data k r c ch * (hgridPhases img sw).data j r c ch = 0) ∧
    (sw * img.frames ∣ img.height → r < img.height →
      (vgridPhases img sw).data k r c ch * (vgridPhases img sw).data j r c ch = 0) := by
  constructor
  · intro hdvd hc
    have hdvd' : img.frames * sw ∣ img.width := by rwa [Nat.mul_comm] at hdvd
    rw [hgridPhases_data img sw k r c ch, hgridPhases_data img sw j r c ch,
      phase_cell_eq img.frames sw img.width c k hsw hF hdvd' hc hk,
      phase_cell_eq img.frames sw img.width c j hsw hF hdvd' hc hj]
    by_cases hka : k = c % (img.frames * sw) / sw
    · have hjne : ¬ j = c % (img.frames * sw) / sw := fun hja => hne (hka.trans hja.symm)
      rw [if_neg hjne, Nat.mul_zero]
    · rw [if_neg hka, Nat.zero_mul]
  · intro hdvd hr
    have hdvd' : img.frames * sw ∣ img.height := by rwa [Nat.mul_comm] at hdvd
    rw [vgridPhases_data img sw k r c ch, vgridPhases_data img sw j r c ch,
      phase_cell_eq img.frames sw img.height r k hsw hF hdvd' hr hk,
      phase_cell_eq img.frames sw img.height r j hsw hF hdvd' hr hj]
    by_cases hka : k = r % (img.frames * sw) / sw
    · have hjne : ¬ j = r % (img.frames * sw) / sw := fun hja => hne (hka.trans hja.symm)
      rw [if_neg hjne, Nat.mul_zero]
    · rw [if_neg hka, Nat.zero_mul]

/-- Witness for the amended C4 at the 12×12, 3-frame input, phases 0 and 1. -/
theorem disjoint_grids_witness :
    (1 ≤ 1 ∧ 1 ≤ exImgRGBA.frames ∧ 0 < exImgRGBA.frames ∧ 1 < exImgRGBA.frames ∧
      ¬ (0 : Nat) = 1 ∧ 1 * exImgRGBA.frames ∣ exImgRGBA.width ∧ 0 < exImgRGBA.width) ∧
    (hgridPhases exImgRGBA 1).data 0 0 0 0 * (hgridPhases exImgRGBA 1).data 1 0 0 0 = 0 :=
  ⟨by decide,
    (disjoint_grids exImgRGBA 1 0 1 0 0 0 (by decide) (by decide) (by decide)
      (by decide) (by decide)).1 (by decide) (by decide)⟩

/-- C5 (evidence of the code bug): `Moire.__call__` on a freshly constructed
instance (configured frame count 6) raises `NameError` — not the documented
frame-count mismatch error, and not silence on a match — both for a matching
stack of length 6 and for a mismatched stack of length 5, because the
validation line reads an unbound module global `num_frames` instead of
`self._num_frames`. -/
theorem call_raises_name_error :
    moireCall (Moire.init Pattern.hgrid 1 6) none 6 = Except.error PyExc.nameError ∧
    moireCall (Moire.init Pattern.hgrid 1 6) none 5 = Except.error PyExc.nameError :=
  ⟨rfl, rfl⟩

/-- C6: when the channel count is 4, the alpha channel (index 3) of every phase
grid cell is 1 and of every composite pixel is 255, independently of the input
frames' alpha values, for both orientations. -/
theorem alpha_forcing (img : Arr4) (sw k r c : Nat) (hC : img.channels = 4) :
    (hgridFull img sw).data k r c 3 = 1 ∧
    (vgridFull img sw).data k r c 3 = 1 ∧
    (scanimationH img sw).data r c 3 = 255 ∧
    (scanimationV img sw).data r c 3 = 255 := by
  refine ⟨?_, ?_, ?_, ?_⟩
  · simp [hgridFull, setAlphaOne, hgridPhases, rollFramesCols, setColStripes, zerosLike, hC]
  · simp [vgridFull, setAlphaOne, vgridPhases, rollFramesRows, setRowStripes, zerosLike, hC]
  · simp [scanimationH, toUint8, summedH, setLast255, maskAndSum, hC]
  · simp [scanimationV, toUint8, summedV, setLast255, maskAndSum, hC]

/-- Witness for C6 at an RGBA input. -/
theorem alpha_forcing_witness :
    exImgRGBA.channels = 4 ∧ (hgridFull exImgRGBA 1).data 0 0 0 3 = 1 :=
  ⟨rfl, (alpha_forcing exImgRGBA 1 0 0 0 rfl).1⟩

/-- C7 counterexample: with two frames both valued 200 overlapping at column 0
(width 5 not divisible by the period), the summed value 400 narrows to
`400 % 256 = 144`, not to the clamped value 255 — the narrowing wraps, it does
not clamp. -/
theorem narrowing_clamp_counterexample :
    (summedH exImgOverlap 1).data 0 0 0 = 400 ∧
    (scanimationH exImgOverlap 1).data 0 0 0 = 144 ∧
    ¬ (scanimationH exImgOverlap 1).data 0 0 0 = 255 := by
  decide

/-- C7 (amended): the composite is accumulated exactly (wide enough to avoid
overflow), and the final narrowing to the 8-bit pixel type reduces each channel
value modulo 256 — values above 255 wrap around rather than clamping — while a
summed value already in 0..255 is preserved, for every input frame stack. -/
theorem narrowing_mod256 (img : Arr4) (sw r c ch : Nat) :
    ((scanimationH img sw).data r c ch < 256 ∧
      (scanimationH img sw).data r c ch % 256 = (summedH img sw).data r c ch % 256 ∧
      ((summedH img sw).data r c ch < 256 →
        (scanimationH img sw).data r c ch = (summedH img sw).data r c ch)) ∧
    ((scanimationV img sw).data r c ch < 256 ∧
      (scanimationV img sw).data r c ch % 256 = (summedV img sw).data r c ch % 256 ∧
      ((summedV img sw).data r c ch < 256 →
        (scanimationV img sw).data r c ch = (summedV img sw).data r c ch)) := by
  have hH : (scanimationH img sw).data r c ch = (summedH img sw).data r c ch % 256 := rfl
  have hV : (scanimationV img sw).data r c ch = (summedV img sw).data r c ch % 256 := rfl
  constructor
  · refine ⟨?_, ?_, ?_⟩
    · rw [hH]; exact Nat.mod_lt _ (by norm_num)
    · rw [hH]; exact Nat.mod_mod_of_dvd _ dvd_rfl
    · intro hlt; rw [hH]; exact Nat.mod_eq_of_lt hlt
  · refine ⟨?_, ?_, ?_⟩
    · rw [hV]; exact Nat.mod_lt _ (by norm_num)
    · rw [hV]; exact Nat.mod_mod_of_dvd _ dvd_rfl
    · intro hlt; rw [hV]; exact Nat.mod_eq_of_lt hlt

/-- Witness for the amended C7 at the 12×12 input, where no wrap occurs. -/
theorem narrowing_mod256_witness :
    (summedH exImgRGBA 1).data 0 0 0 < 256 ∧
    (scanimationH exImgRGBA 1).data 0 0 0 = (summedH exImgRGBA 1).data 0 0 0 :=
  ⟨by decide, (narrowing_mod256 exImgRGBA 1 0 0 0).1.2.2 (by decide)⟩

/-- C8: the grid stack built by the compositing pipeline
(`grid = np.zeros_like(img)` and the in-place updates) has exactly the frame
stack's dimensions — in particular its spatial shape is the frames'
(height, width) — for both orientations and every input frame stack. -/
theorem grid_shape_matches_frames (img : Arr4) (sw : Nat) :
    ((hgridFull img sw).frames = img.frames ∧ (hgridFull img sw).height = img.height ∧
      (hgridFull img sw).width = img.width ∧ (hgridFull img sw).channels = img.channels) ∧
    ((vgridFull img sw).frames = img.frames ∧ (vgridFull img sw).height = img.height ∧
      (vgridFull img sw).width = img.width ∧ (vgridFull img sw).channels = img.channels) :=
  ⟨⟨rfl, rfl, rfl, rfl⟩, ⟨rfl, rfl, rfl, rfl⟩⟩

/-- C9: the grid built with Horizontal orientation on an (h, w) footprint,
read transposed, coincides cell for cell with the grid built with Vertical
orientation on a (w, h) footprint — both for the raw phase stacks and for the
stacks after the alpha overwrite. -/
theorem orientation_transpose (F h w C sw k r c ch : Nat)
    (dh dv : Nat → Nat → Nat → Nat → Nat) :
    (hgridPhases ⟨F, h, w, C, dh⟩ sw).data k r c ch
        = (vgridPhases ⟨F, w, h, C, dv⟩ sw).data k c r ch ∧
    (hgridFull ⟨F, h, w, C, dh⟩ sw).data k r c ch
        = (vgridFull ⟨F, w, h, C, dv⟩ sw).data k c r ch :=
  ⟨rfl, rfl⟩

/-- C10: assigning the `replications` property updates only the stored
`_replications` field — the `grid` attribute and the other configuration are
untouched — so the grid goes stale: after `Moire("hgrid", 1, 6)` (grid side
`1*6*24 = 144`) sets `replications = 25`, the stored grid side 144 differs from
the now-implied `stripe_width * num_frames * replications = 150`. -/
theorem replications_setter_stale :
    (∀ (s : Moire) (v : Nat),
      (setReplications s v).grid = s.grid ∧
      (setReplications s v).replications = v ∧
      (setReplications s v).pattern = s.pattern ∧
      (setReplications s v).stripe_width = s.stripe_width ∧
      (setReplications s v).num_frames = s.num_frames) ∧
    ((setReplications (Moire.init Pattern.hgrid 1 6) 25).grid.rows = 144 ∧
      (setReplications (Moire.init Pattern.hgrid 1 6) 25).stripe_width *
        (setReplications (Moire.init Pattern.hgrid 1 6) 25).num_frames *
        (setReplications (Moire.init Pattern.hgrid 1 6) 25).replications = 150 ∧
      ¬ (144 : Nat) = 150) :=
  ⟨fun s v => ⟨rfl, rfl, rfl, rfl, rfl⟩, by decide, by decide, by decide⟩
